import Mathlib

/-!
# Verification of the rental-marketplace server (src/server.js)

Shallow embedding of the server's core logic: the JSON record store, the
subscription gate (`checkSubscription`), the subscription lifecycle
(`POST /api/subscriptions/subscribe`), listing management
(`POST /api/properties`, `PUT /api/properties/:id`) and the booking engine
(`POST /api/bookings`, `PUT /api/bookings/:id/status`).

Modelling conventions:
* Instants (`Date` values) are integers counting milliseconds since the epoch;
  `Date` relational comparison in JS compares these timestamps, and
  `setDate(getDate() + n)` on a UTC timeline adds `n * 86400000` milliseconds.
* Record ids (uuids) and user ids are `String`s.
* Untyped JSON request-body values are modelled by `JSVal`; JS truthiness,
  `parseFloat`, `parseInt` and numeric coercion are modelled on `JSVal`
  (scientific-notation string literals and array→string coercion inside
  `parseFloat`/`parseInt` are not modelled; no claim depends on them).
* Floating-point numbers are modelled by exact rationals, with `NaN` as a
  separate `JSVal` constructor.
* Each HTTP handler becomes a pure function from its inputs and the relevant
  collections to an `Except ApiErr result` paired with the collection(s) it
  writes back.
-/

namespace Rental

/-- Untyped JSON/JS values as they occur in request bodies and stored records.
`vNaN` is the floating-point not-a-number. Objects are not needed by any
handler field and are omitted. -/
inductive JSVal where
  | vUndef : JSVal
  | vNull : JSVal
  | vNaN : JSVal
  | vBool : Bool → JSVal
  | vNum : ℚ → JSVal
  | vStr : String → JSVal
  | vArr : List JSVal → JSVal
deriving Repr, BEq

open JSVal

/-- JS truthiness: `undefined`, `null`, `NaN`, `false`, `0` and `""` are falsy;
every other value — including the empty array — is truthy. -/
def truthy : JSVal → Bool
  | vUndef => false
  | vNull => false
  | vNaN => false
  | vBool b => b
  | vNum q => q ≠ 0
  | vStr s => !s.isEmpty
  | vArr _ => true

/-- JS `a || b`. -/
def jsOr (a b : JSVal) : JSVal := if truthy a then a else b

/-- Value of a (reversed) digit string read as a natural number. -/
def digitsVal (cs : List Char) : ℕ :=
  cs.foldl (fun acc c => acc * 10 + (c.toNat - '0'.toNat)) 0

/-- Value of a digit string read as the fractional part after a decimal point. -/
def fracVal (cs : List Char) : ℚ :=
  (digitsVal cs : ℚ) / (10 : ℚ) ^ cs.length

/-- Leading-whitespace characters skipped by JS numeric parsing. -/
def isJsSpace (c : Char) : Bool := c = ' ' ∨ c = '\t' ∨ c = '\n' ∨ c = '\r'

/-- JS `parseFloat` on a string: skip leading whitespace, optional sign,
integer digits, optional fractional digits; trailing garbage is ignored;
`NaN` when no digits are found. (Exponent suffixes are not modelled.) -/
def parseFloatStr (s : String) : JSVal :=
  let cs := s.data.dropWhile isJsSpace
  let (sgn, cs) : ℚ × List Char :=
    match cs with
    | '-' :: r => (-1, r)
    | '+' :: r => (1, r)
    | _ => (1, cs)
  let ip := cs.takeWhile Char.isDigit
  let rest := cs.dropWhile Char.isDigit
  let fp :=
    match rest with
    | '.' :: r => r.takeWhile Char.isDigit
    | _ => []
  if ip.isEmpty ∧ fp.isEmpty then vNaN
  else vNum (sgn * ((digitsVal ip : ℚ) + fracVal fp))

/-- JS `parseInt` (radix 10) on a string: like `parseFloatStr` but stops at the
integer digits. -/
def parseIntStr (s : String) : JSVal :=
  let cs := s.data.dropWhile isJsSpace
  let (sgn, cs) : ℚ × List Char :=
    match cs with
    | '-' :: r => (-1, r)
    | '+' :: r => (1, r)
    | _ => (1, cs)
  let ip := cs.takeWhile Char.isDigit
  if ip.isEmpty then vNaN else vNum (sgn * (digitsVal ip : ℕ))

/-- Truncation toward zero, as JS `parseInt` applied to a numeric literal. -/
def truncRat (q : ℚ) : ℤ := if 0 ≤ q then ⌊q⌋ else -⌊-q⌋

/-- JS `parseFloat(x)`: non-string non-number arguments are first coerced to
strings, which yields `NaN` for `undefined`/`null`/booleans. -/
def parseFloatJS : JSVal → JSVal
  | vNum q => vNum q
  | vStr s => parseFloatStr s
  | _ => vNaN

/-- JS `parseInt(x)` (no radix): numbers go through their decimal rendering,
so the fractional part is dropped (truncation toward zero). -/
def parseIntJS : JSVal → JSVal
  | vNum q => vNum (truncRat q : ℤ)
  | vStr s => parseIntStr s
  | _ => vNaN

/-- JS `ToNumber` coercion as used by `*`: `null → 0`, `undefined → NaN`,
booleans to `0`/`1`, strings via strict full-string parsing (`"" → 0`),
arrays via their single element or `0`/`NaN`. -/
def toNumber : JSVal → JSVal
  | vUndef => vNaN
  | vNull => vNum 0
  | vNaN => vNaN
  | vBool b => vNum (if b then 1 else 0)
  | vNum q => vNum q
  | vStr s =>
    let cs := s.data.dropWhile isJsSpace
    if cs.isEmpty then vNum 0
    else
      let (sgn, cs') : ℚ × List Char :=
        match cs with
        | '-' :: r => (-1, r)
        | '+' :: r => (1, r)
        | _ => (1, cs)
      let ip := cs'.takeWhile Char.isDigit
      let rest := cs'.dropWhile Char.isDigit
      let (fp, rest') :=
        match rest with
        | '.' :: r => (r.takeWhile Char.isDigit, r.dropWhile Char.isDigit)
        | _ => ([], rest)
      if (ip.isEmpty ∧ fp.isEmpty) ∨ ¬rest'.isEmpty then vNaN
      else vNum (sgn * ((digitsVal ip : ℚ) + fracVal fp))
  | vArr [] => vNum 0
  | vArr [x] => toNumber x
  | vArr (_ :: _ :: _) => vNaN

/-- JS multiplication `a * b` (numeric coercion, `NaN` propagates). -/
def jsMul (a b : JSVal) : JSVal :=
  match toNumber a, toNumber b with
  | vNum x, vNum y => vNum (x * y)
  | _, _ => vNaN

/-- The distinct user-visible failures of the server (§7 of the design). -/
inductive ApiErr where
  | ValidationError
  | InvalidPlan
  | SubscriptionRequired
  | SubscriptionExpired
  | PlanLimitExceeded
  | Forbidden
  | NotFound
  | DatesUnavailable
deriving Repr, DecidableEq

/-- Milliseconds in a day. -/
def dayMs : ℤ := 86400000

/-- Model of `new Date(t)` plus `setDate(getDate() + n)` on the UTC timeline. -/
def addDays (t : ℤ) (n : ℕ) : ℤ := t + n * dayMs

/-- Replace the first element satisfying `p` by its image under `f`: the model
of `array.find(p)` followed by in-place mutation of the found record. -/
def updateFirst (p : α → Bool) (f : α → α) : List α → List α
  | [] => []
  | a :: l => if p a then f a :: l else a :: updateFirst p f l

/-- A subscription record (collection `subscriptions`). -/
structure Subscription where
  id : String
  userId : String
  planId : String
  price : ℚ
  status : String
  createdAt : ℤ
  expiresAt : ℤ
  updatedAt : ℤ
deriving Repr, DecidableEq

/-- An entry of the static plan catalog. -/
structure Plan where
  id : String
  price : ℚ
  duration : ℕ
deriving Repr, DecidableEq

/-- The plan catalog hard-coded in the subscribe handler. -/
def plans : List Plan :=
  [⟨"basic", 999/100, 30⟩, ⟨"premium", 1999/100, 30⟩, ⟨"enterprise", 4999/100, 30⟩]

/-- The predicate of `subscriptions.find` in both `checkSubscription` and the
subscribe handler: this user's record with status "active". -/
def isActiveFor (userId : String) (s : Subscription) : Bool :=
  s.userId = userId ∧ s.status = "active"

/-- Gate `checkSubscription` (src/server.js:89-119): find the caller's active
subscription; none → `SubscriptionRequired`; found but `expiresAt < now` →
flip its status to "expired", persist, `SubscriptionExpired`; otherwise attach
it to the request. Returns the gate outcome and the persisted collection. -/
def checkSubscription (subs : List Subscription) (userId : String) (now : ℤ) :
    Except ApiErr Subscription × List Subscription :=
  match subs.find? (isActiveFor userId) with
  | none => (.error .SubscriptionRequired, subs)
  | some userSubscription =>
    if userSubscription.expiresAt < now then
      (.error .SubscriptionExpired,
        updateFirst (isActiveFor userId) (fun s => { s with status := "expired" }) subs)
    else
      (.ok userSubscription, subs)

/-- Handler `POST /api/subscriptions/subscribe` (src/server.js:292-350): validate the
plan, then either update the caller's existing active record in place or push
a fresh active record. Returns the resulting record and the persisted
collection. `freshId` stands for `uuidv4()`. -/
def subscribe (subs : List Subscription) (userId planId : String) (now : ℤ)
    (freshId : String) : Except ApiErr Subscription × List Subscription :=
  if planId.isEmpty then (.error .ValidationError, subs)
  else
    match plans.find? (fun p => p.id = planId) with
    | none => (.error .InvalidPlan, subs)
    | some plan =>
      let expiresAt := addDays now plan.duration
      match subs.find? (isActiveFor userId) with
      | some existingSubscription =>
        let updated := { existingSubscription with
          planId := planId, price := plan.price,
          expiresAt := expiresAt, updatedAt := now }
        (.ok updated,
          updateFirst (isActiveFor userId)
            (fun s => { s with planId := planId, price := plan.price,
                               expiresAt := expiresAt, updatedAt := now }) subs)
      | none =>
        let newSubscription : Subscription :=
          { id := freshId, userId := userId, planId := planId,
            price := plan.price, status := "active",
            createdAt := now, expiresAt := expiresAt, updatedAt := now }
        (.ok newSubscription, subs ++ [newSubscription])

/-- A property (listing) record (collection `properties`). Request-supplied
payload fields keep their untyped `JSVal` shape, exactly as the handler stores
them. -/
structure Property where
  id : String
  ownerId : String
  title : JSVal
  description : JSVal
  location : JSVal
  price : JSVal
  type : JSVal
  bedrooms : JSVal
  bathrooms : JSVal
  guests : JSVal
  amenities : JSVal
  images : JSVal
  rating : JSVal
  reviews : JSVal
  instant : JSVal
  premium : JSVal
  createdAt : ℤ
  updatedAt : ℤ
deriving Repr, BEq

/-- The request body of `POST /api/properties`: the destructured fields, each
possibly absent (`vUndef`). -/
structure PropReq where
  title : JSVal := vUndef
  description : JSVal := vUndef
  location : JSVal := vUndef
  price : JSVal := vUndef
  type : JSVal := vUndef
  bedrooms : JSVal := vUndef
  bathrooms : JSVal := vUndef
  guests : JSVal := vUndef
  amenities : JSVal := vUndef
  images : JSVal := vUndef
deriving Repr

/-- Handler `POST /api/properties` (src/server.js:381-443), run after the subscription
gate attached `sub` to the request: truthiness validation of
title/location/price, basic-plan listing cap, then append the new record.
Returns the created record and the persisted collection. -/
def createProperty (properties : List Property) (sub : Subscription)
    (userId : String) (req : PropReq) (now : ℤ) (freshId : String) :
    Except ApiErr Property × List Property :=
  if ¬truthy req.title ∨ ¬truthy req.location ∨ ¬truthy req.price then
    (.error .ValidationError, properties)
  else if sub.planId = "basic" ∧
      (properties.filter (fun p => p.ownerId = userId)).length ≥ 3 then
    (.error .PlanLimitExceeded, properties)
  else
    let newProperty : Property :=
      { id := freshId
        ownerId := userId
        title := req.title
        description := jsOr req.description (vStr "")
        location := req.location
        price := parseFloatJS req.price
        type := jsOr req.type (vStr "apartment")
        bedrooms := jsOr (parseIntJS req.bedrooms) (vNum 1)
        bathrooms := jsOr (parseIntJS req.bathrooms) (vNum 1)
        guests := jsOr (parseIntJS req.guests) (vNum 2)
        amenities := jsOr req.amenities (vArr [])
        images := jsOr req.images (vArr [])
        rating := vNum 0
        reviews := vNum 0
        instant := vBool false
        premium := vBool (sub.planId ≠ "basic")
        createdAt := now
        updatedAt := now }
    (.ok newProperty, properties ++ [newProperty])

/-- The request body of `PUT /api/properties/:id`: a patch that may carry any
of the record's fields (spread of `req.body` over the existing record).
`none` means the key is absent from the body. -/
structure PropPatch where
  id : Option String := none
  ownerId : Option String := none
  title : Option JSVal := none
  description : Option JSVal := none
  location : Option JSVal := none
  price : Option JSVal := none
  type : Option JSVal := none
  bedrooms : Option JSVal := none
  bathrooms : Option JSVal := none
  guests : Option JSVal := none
  amenities : Option JSVal := none
  images : Option JSVal := none
  rating : Option JSVal := none
  reviews : Option JSVal := none
  instant : Option JSVal := none
  premium : Option JSVal := none
  createdAt : Option ℤ := none
deriving Repr

/-- Merge `{ ...property, ...req.body, id: property.id, ownerId: property.ownerId,
updatedAt: now }`: the body's keys override the record, then id/ownerId are
restored from the pre-update record and updatedAt refreshed. -/
def mergePatch (p : Property) (patch : PropPatch) (now : ℤ) : Property :=
  { id := p.id
    ownerId := p.ownerId
    title := patch.title.getD p.title
    description := patch.description.getD p.description
    location := patch.location.getD p.location
    price := patch.price.getD p.price
    type := patch.type.getD p.type
    bedrooms := patch.bedrooms.getD p.bedrooms
    bathrooms := patch.bathrooms.getD p.bathrooms
    guests := patch.guests.getD p.guests
    amenities := patch.amenities.getD p.amenities
    images := patch.images.getD p.images
    rating := patch.rating.getD p.rating
    reviews := patch.reviews.getD p.reviews
    instant := patch.instant.getD p.instant
    premium := patch.premium.getD p.premium
    createdAt := patch.createdAt.getD p.createdAt
    updatedAt := now }

/-- Handler `PUT /api/properties/:id` (src/server.js:446-478): locate by id
(`NotFound` else), check ownership (`Forbidden` else), merge the patch and
write the collection back. Returns the updated record and the persisted
collection. -/
def updateProperty (properties : List Property) (id userId : String)
    (patch : PropPatch) (now : ℤ) : Except ApiErr Property × List Property :=
  match h : properties.findIdx? (fun p => p.id = id) with
  | none => (.error .NotFound, properties)
  | some propertyIndex =>
    let property := properties.get
      ⟨propertyIndex, List.findIdx?_eq_some_iff_findIdx_eq.mp h |>.1⟩
    if property.ownerId ≠ userId then (.error .Forbidden, properties)
    else
      let updatedProperty := mergePatch property patch now
      (.ok updatedProperty, properties.set propertyIndex updatedProperty)

/-- A booking record (collection `bookings`). `checkIn`/`checkOut` are the
instants obtained from `new Date(...)` on the request strings. -/
structure Booking where
  id : String
  propertyId : String
  userId : String
  checkIn : ℤ
  checkOut : ℤ
  guests : JSVal
  totalPrice : JSVal
  status : String
  createdAt : ℤ
deriving Repr, BEq

/-- The request body of `POST /api/bookings`. `checkIn`/`checkOut` are `none`
when the field is missing or empty (falsy), otherwise the parsed instant. -/
structure BookingReq where
  propertyId : String := ""
  checkIn : Option ℤ := none
  checkOut : Option ℤ := none
  guests : JSVal := vUndef
deriving Repr

/-- The conflict predicate of `bookings.find` in the booking handler
(src/server.js:538-547): same property, status "confirmed", and one of the
three range tests on the candidate `[checkIn, checkOut)`. -/
def conflictsWith (propertyId : String) (checkInDate checkOutDate : ℤ)
    (b : Booking) : Bool :=
  if b.propertyId ≠ propertyId ∨ b.status ≠ "confirmed" then false
  else
    (checkInDate ≥ b.checkIn ∧ checkInDate < b.checkOut) ∨
    (checkOutDate > b.checkIn ∧ checkOutDate ≤ b.checkOut) ∨
    (checkInDate ≤ b.checkIn ∧ checkOutDate ≥ b.checkOut)

/-- Night count `Math.ceil((checkOut - checkIn) / (1000*60*60*24))`. -/
def nights (checkInDate checkOutDate : ℤ) : ℤ :=
  ⌈((checkOutDate - checkInDate : ℤ) : ℚ) / (dayMs : ℚ)⌉

/-- Handler `POST /api/bookings` (src/server.js:518-579): required-field check,
property lookup, date-conflict scan over confirmed bookings of the property,
price computation, then append the new booking (auto-confirmed iff the
property's `instant` flag is truthy). Returns the created booking and the
persisted bookings collection. -/
def createBooking (properties : List Property) (bookings : List Booking)
    (userId : String) (req : BookingReq) (now : ℤ) (freshId : String) :
    Except ApiErr Booking × List Booking :=
  match req.checkIn, req.checkOut with
  | some checkInDate, some checkOutDate =>
    if req.propertyId.isEmpty then (.error .ValidationError, bookings)
    else
      match properties.find? (fun p => p.id = req.propertyId) with
      | none => (.error .NotFound, bookings)
      | some property =>
        match bookings.find? (conflictsWith req.propertyId checkInDate checkOutDate) with
        | some _ => (.error .DatesUnavailable, bookings)
        | none =>
          let totalPrice := jsMul property.price (vNum (nights checkInDate checkOutDate))
          let newBooking : Booking :=
            { id := freshId
              propertyId := req.propertyId
              userId := userId
              checkIn := checkInDate
              checkOut := checkOutDate
              guests := jsOr (parseIntJS req.guests) property.guests
              totalPrice := totalPrice
              status := if truthy property.instant then "confirmed" else "pending"
              createdAt := now }
          (.ok newBooking, bookings ++ [newBooking])
  | _, _ => (.error .ValidationError, bookings)

/-- Handler `PUT /api/bookings/:id/status` (src/server.js:610-638): locate the booking
(`NotFound` else), resolve its property and require the caller to be that
property's owner (`Forbidden` else, including when the property is gone), then
store the supplied status string unvalidated. Returns the updated booking and
the persisted bookings collection. -/
def updateBookingStatus (bookings : List Booking) (properties : List Property)
    (id : String) (status : String) (userId : String) :
    Except ApiErr Booking × List Booking :=
  match h : bookings.findIdx? (fun b => b.id = id) with
  | none => (.error .NotFound, bookings)
  | some bookingIndex =>
    let booking := bookings.get
      ⟨bookingIndex, List.findIdx?_eq_some_iff_findIdx_eq.mp h |>.1⟩
    match properties.find? (fun p => p.id = booking.propertyId) with
    | none => (.error .Forbidden, bookings)
    | some property =>
      if property.ownerId ≠ userId then (.error .Forbidden, bookings)
      else
        let updated := { booking with status := status }
        (.ok updated, bookings.set bookingIndex updated)

/-- A stored collection file as `readData` finds it: present with parseable
JSON, absent, unreadable, or present with unparseable content. -/
inductive StoreFile (α : Type) where
  | parsed : List α → StoreFile α
  | absent : StoreFile α
  | unreadable : StoreFile α
  | corrupt : StoreFile α
deriving Repr, DecidableEq

/-- Reader `readData` (src/server.js:57-64): `fs.readFile` + `JSON.parse` inside a
`try`, every failure caught and replaced by `[]`. -/
def readData : StoreFile α → List α
  | .parsed records => records
  | _ => []

/-- A store file that fails to read: absent, unreadable, or unparseable. -/
def StoreFile.failed : StoreFile α → Prop
  | .parsed _ => False
  | _ => True

/-- Number of records of user `u` with status "active" in a subscriptions
collection. -/
def activeCount (u : String) (subs : List Subscription) : ℕ :=
  (subs.filter (isActiveFor u)).length

/-- The spec's half-open-interval conflict formula, written from the spec's
words (`[a,b)` and `[c,d)` conflict iff `a < d AND c < b`) for comparison
with the code's `conflictsWith`. -/
def specConflict (a b c d : ℤ) : Prop := a < d ∧ c < b

/-! ## Helper lemmas -/

lemma updateFirst_length (p : α → Bool) (f : α → α) :
    ∀ l : List α, (updateFirst p f l).length = l.length := by
  intro l
  induction l with
  | nil => rfl
  | cons a t ih =>
    simp only [updateFirst]
    split <;> simp [ih]

lemma map_updateFirst (g : α → β) (p : α → Bool) (f : α → α)
    (h : ∀ a, g (f a) = g a) :
    ∀ l : List α, (updateFirst p f l).map g = l.map g := by
  intro l
  induction l with
  | nil => rfl
  | cons a t ih =>
    simp only [updateFirst]
    split <;> simp [h a, ih]

lemma filter_updateFirst_eq (q p : α → Bool) (f : α → α) (h : ∀ a, q (f a) = q a) :
    ∀ l : List α, ((updateFirst p f l).filter q).length = (l.filter q).length := by
  intro l
  induction l with
  | nil => rfl
  | cons a t ih =>
    simp only [updateFirst]
    split
    · simp only [List.filter_cons, h a]
      split <;> simp [ih]
    · simp only [List.filter_cons]
      split <;> simp [ih]

lemma filter_updateFirst_le (q p : α → Bool) (f : α → α)
    (h : ∀ a, q (f a) = true → q a = true) :
    ∀ l : List α, ((updateFirst p f l).filter q).length ≤ (l.filter q).length := by
  intro l
  induction l with
  | nil => exact le_rfl
  | cons a t ih =>
    simp only [updateFirst]
    split
    · simp only [List.filter_cons]
      rcases hq : q (f a) with _ | _
      · rcases hqa : q a with _ | _ <;> simp
      · rw [h a hq]
        simp only [hq, if_true, List.length_cons]
        exact le_rfl
    · simp only [List.filter_cons]
      split <;> simpa using ih

lemma filter_updateFirst_zero (p : α → Bool) (f : α → α)
    (h3 : ∀ a, p (f a) = false) :
    ∀ l : List α, (l.filter p).length ≤ 1 → (l.find? p).isSome →
      ((updateFirst p f l).filter p).length = 0 := by
  intro l
  induction l with
  | nil => intro _ h2; simp at h2
  | cons a t ih =>
    intro h1 h2
    simp only [updateFirst]
    rcases ha : p a with _ | _
    · rw [if_neg (by simp [ha])]
      rw [List.filter_cons_of_neg (by simp [ha])] at h1
      simp only [List.filter_cons, ha, Bool.false_eq_true, if_false]
      exact ih h1 (by simpa [List.find?, ha] using h2)
    · rw [if_pos (by simp [ha])]
      rw [List.filter_cons_of_pos (by simp [ha])] at h1
      rw [List.filter_cons_of_neg (by simp [h3 a])]
      simp only [List.length_cons] at h1
      omega

lemma isActiveFor_expire (v : String) (a : Subscription) :
    isActiveFor v { a with status := "expired" } = false := by
  simp [isActiveFor]

lemma checkSubscription_of_find_none (l : List Subscription) (u : String) (t : ℤ)
    (h : l.find? (isActiveFor u) = none) :
    checkSubscription l u t = (.error .SubscriptionRequired, l) := by
  simp [checkSubscription, h]

/-! ## Claims -/

/-- C2: for every user at most one subscription record is active at any
instant, and both operations that write the subscriptions collection preserve
this; subscribing while an active subscription exists updates that record in
place (same id, with planId, price, expiresAt, updatedAt overwritten) without
appending, and a fresh active record is appended only when the user has no
active subscription. -/
theorem c2_one_active_invariant :
    (∀ (subs : List Subscription) (u planId : String) (now : ℤ) (fid v : String),
       (∀ w, activeCount w subs ≤ 1) →
       activeCount v (subscribe subs u planId now fid).2 ≤ 1) ∧
    (∀ (subs : List Subscription) (u : String) (now : ℤ) (v : String),
       (∀ w, activeCount w subs ≤ 1) →
       activeCount v (checkSubscription subs u now).2 ≤ 1) ∧
    (∀ (subs : List Subscription) (u planId : String) (now : ℤ) (fid : String)
       (s : Subscription) (plan : Plan),
       subs.find? (isActiveFor u) = some s →
       plans.find? (fun p => p.id = planId) = some plan →
       ¬planId.isEmpty = true →
       (subscribe subs u planId now fid).1 =
         .ok { s with planId := planId, price := plan.price,
                      expiresAt := addDays now plan.duration, updatedAt := now } ∧
       (subscribe subs u planId now fid).2.length = subs.length ∧
       (subscribe subs u planId now fid).2.map Subscription.id =
         subs.map Subscription.id) ∧
    (∀ (subs : List Subscription) (u planId : String) (now : ℤ) (fid : String)
       (plan : Plan),
       subs.find? (isActiveFor u) = none →
       plans.find? (fun p => p.id = planId) = some plan →
       ¬planId.isEmpty = true →
       (subscribe subs u planId now fid).2 =
         subs ++ [{ id := fid, userId := u, planId := planId, price := plan.price,
                    status := "active", createdAt := now,
                    expiresAt := addDays now plan.duration, updatedAt := now }]) := by
  refine ⟨?_, ?_, ?_, ?_⟩
  · intro subs u planId now fid v hinv
    by_cases hp : planId.isEmpty = true
    · simpa [subscribe, hp] using hinv v
    · rcases hplan : plans.find? (fun p => p.id = planId) with _ | plan
      · simpa [subscribe, hp, hplan] using hinv v
      · rcases hex : subs.find? (isActiveFor u) with _ | s
        · simp only [subscribe, hp, if_false, hplan, hex, activeCount,
            List.filter_append, List.length_append]
          by_cases hv : v = u
          · subst hv
            have h0 : subs.filter (isActiveFor v) = [] :=
              List.filter_eq_nil_iff.mpr (fun x hx => by
                simpa using List.find?_eq_none.mp hex x hx)
            simp [h0, List.filter, isActiveFor]
          · have hf : isActiveFor v
                ({ id := fid, userId := u, planId := planId, price := plan.price,
                   status := "active", createdAt := now,
                   expiresAt := addDays now plan.duration,
                   updatedAt := now } : Subscription) = false := by
              simp [isActiveFor]
              intro h
              exact absurd h.symm hv
            simp [List.filter, hf]
            exact hinv v
        · have hstate : (subscribe subs u planId now fid).2 =
              updateFirst (isActiveFor u)
                (fun r => { r with planId := planId, price := plan.price,
                                   expiresAt := addDays now plan.duration,
                                   updatedAt := now }) subs := by
            simp [subscribe, hp, hplan, hex]
          have heq := filter_updateFirst_eq (isActiveFor v) (isActiveFor u)
            (fun r => { r with planId := planId, price := plan.price,
                               expiresAt := addDays now plan.duration,
                               updatedAt := now })
            (fun a => rfl) subs
          simp only [activeCount]
          rw [hstate, heq]
          exact hinv v
  · intro subs u now v hinv
    rcases hex : subs.find? (isActiveFor u) with _ | s
    · simpa [checkSubscription, hex] using hinv v
    · by_cases hlt : s.expiresAt < now
      · simp only [checkSubscription, hex, if_pos hlt, activeCount]
        refine le_trans (filter_updateFirst_le _ _ _ ?_ subs) (hinv v)
        intro a ha
        rw [isActiveFor_expire] at ha
        exact absurd ha (by simp)
      · simpa [checkSubscription, hex, hlt] using hinv v
  · intro subs u planId now fid s plan hex hplan hp
    have hstate : (subscribe subs u planId now fid).2 =
        updateFirst (isActiveFor u)
          (fun r => { r with planId := planId, price := plan.price,
                             expiresAt := addDays now plan.duration,
                             updatedAt := now }) subs := by
      simp [subscribe, hp, hplan, hex]
    refine ⟨by simp [subscribe, hp, hplan, hex], ?_, ?_⟩
    · rw [hstate]
      exact updateFirst_length _ _ subs
    · rw [hstate]
      exact map_updateFirst Subscription.id (isActiveFor u)
        (fun r => { r with planId := planId, price := plan.price,
                           expiresAt := addDays now plan.duration,
                           updatedAt := now })
        (fun a => rfl) subs
  · intro subs u planId now fid plan hex hplan hp
    simp [subscribe, hp, hplan, hex]

/-- Witness for C2: a user with one active basic subscription subscribes to
premium; the single record is updated in place (same id "s1") and the
collection still holds exactly one record. -/
theorem c2_one_active_invariant_witness :
    (subscribe [⟨"s1", "u1", "basic", 999/100, "active", 0, 2592000000, 0⟩]
        "u1" "premium" 5 "s2").1 =
      .ok ⟨"s1", "u1", "premium", 1999/100, "active", 0, addDays 5 30, 5⟩ ∧
    (subscribe [⟨"s1", "u1", "basic", 999/100, "active", 0, 2592000000, 0⟩]
        "u1" "premium" 5 "s2").2.length = 1 ∧
    (subscribe [⟨"s1", "u1", "basic", 999/100, "active", 0, 2592000000, 0⟩]
        "u1" "premium" 5 "s2").2.map Subscription.id = ["s1"] :=
  c2_one_active_invariant.2.2.1
    [⟨"s1", "u1", "basic", 999/100, "active", 0, 2592000000, 0⟩]
    "u1" "premium" 5 "s2"
    ⟨"s1", "u1", "basic", 999/100, "active", 0, 2592000000, 0⟩
    ⟨"premium", 1999/100, 30⟩ rfl rfl (by decide)

/-- C3 (amended): when the gate finds the user's active subscription with
`expiresAt` in the past, it returns SubscriptionExpired and persists the flip
to "expired" exactly once (the collection keeps its length and the user is
left with no active record); every subsequent gated call fails with
SubscriptionRequired — not SubscriptionExpired — and writes nothing, until the
user re-subscribes. -/
theorem c3_expiry_flip (subs : List Subscription) (u : String) (now : ℤ)
    (s : Subscription)
    (hex : subs.find? (isActiveFor u) = some s)
    (hlt : s.expiresAt < now)
    (hinv : activeCount u subs ≤ 1) :
    (checkSubscription subs u now).1 = .error .SubscriptionExpired ∧
    (checkSubscription subs u now).2.length = subs.length ∧
    activeCount u (checkSubscription subs u now).2 = 0 ∧
    ∀ now', checkSubscription (checkSubscription subs u now).2 u now' =
      (.error .SubscriptionRequired, (checkSubscription subs u now).2) := by
  have hstate : (checkSubscription subs u now).2 =
      updateFirst (isActiveFor u) (fun r => { r with status := "expired" }) subs := by
    simp [checkSubscription, hex, hlt]
  have hzero : activeCount u (checkSubscription subs u now).2 = 0 := by
    rw [hstate]
    exact filter_updateFirst_zero _ _ (fun a => isActiveFor_expire u a) subs hinv
      (by simp [hex])
  refine ⟨by simp [checkSubscription, hex, hlt],
    by rw [hstate]; exact updateFirst_length _ _ subs, hzero, ?_⟩
  intro now'
  have hnil : (checkSubscription subs u now).2.filter (isActiveFor u) = [] :=
    List.length_eq_zero.mp hzero
  have hnone : (checkSubscription subs u now).2.find? (isActiveFor u) = none := by
    rw [List.find?_eq_none]
    intro x hx hxa
    have hmem : x ∈ (checkSubscription subs u now).2.filter (isActiveFor u) :=
      List.mem_filter.mpr ⟨hx, hxa⟩
    simp [hnil] at hmem
  exact checkSubscription_of_find_none _ _ _ hnone

/-- Witness for C3 (amended): user "u1" holds an active subscription expired
at instant 0; the gate at instant 1 returns SubscriptionExpired, flips the
record, and the next gated call returns SubscriptionRequired with no further
write. -/
theorem c3_expiry_flip_witness :
    (checkSubscription [⟨"s1", "u1", "basic", 0, "active", 0, 0, 0⟩] "u1" 1).1 =
      .error .SubscriptionExpired ∧
    (checkSubscription [⟨"s1", "u1", "basic", 0, "active", 0, 0, 0⟩] "u1" 1).2.length = 1 ∧
    activeCount "u1"
      (checkSubscription [⟨"s1", "u1", "basic", 0, "active", 0, 0, 0⟩] "u1" 1).2 = 0 ∧
    ∀ now', checkSubscription
        (checkSubscription [⟨"s1", "u1", "basic", 0, "active", 0, 0, 0⟩] "u1" 1).2
        "u1" now' =
      (.error .SubscriptionRequired,
        (checkSubscription [⟨"s1", "u1", "basic", 0, "active", 0, 0, 0⟩] "u1" 1).2) :=
  c3_expiry_flip [⟨"s1", "u1", "basic", 0, "active", 0, 0, 0⟩] "u1" 1
    ⟨"s1", "u1", "basic", 0, "active", 0, 0, 0⟩ rfl (by decide) (by decide)

/-- Counterexample for C3 as stated: after the gate has flipped the expired
record, the next gated call by the same user fails with SubscriptionRequired,
which is a different failure than the SubscriptionExpired the claim promises
for all subsequent calls. -/
theorem c3_counterexample :
    (checkSubscription
        (checkSubscription [⟨"s1", "u1", "basic", 0, "active", 0, 0, 0⟩] "u1" 1).2
        "u1" 1).1 = .error .SubscriptionRequired ∧
    ApiErr.SubscriptionRequired ≠ ApiErr.SubscriptionExpired := by
  constructor
  · rfl
  · decide

/-- C4: a subscribe call with a valid planId always yields a record with
`expiresAt` equal to the call time plus the plan's duration (30 days),
whatever the prior state; in particular two sequential subscribe calls yield
`expiresAt` equal to the second call's time plus one duration. -/
theorem c4_nonadditive_renewal :
    (∀ (subs : List Subscription) (u planId : String) (now : ℤ) (fid : String)
       (plan : Plan) (r : Subscription),
       plans.find? (fun p => p.id = planId) = some plan →
       (subscribe subs u planId now fid).1 = .ok r →
       r.expiresAt = addDays now plan.duration ∧ plan.duration = 30) ∧
    (∀ (subs : List Subscription) (u pid1 pid2 : String) (t1 t2 : ℤ)
       (f1 f2 : String) (plan2 : Plan) (r2 : Subscription),
       plans.find? (fun p => p.id = pid2) = some plan2 →
       (subscribe (subscribe subs u pid1 t1 f1).2 u pid2 t2 f2).1 = .ok r2 →
       r2.expiresAt = addDays t2 plan2.duration) := by
  have main : ∀ (subs : List Subscription) (u planId : String) (now : ℤ)
      (fid : String) (plan : Plan) (r : Subscription),
      plans.find? (fun p => p.id = planId) = some plan →
      (subscribe subs u planId now fid).1 = .ok r →
      r.expiresAt = addDays now plan.duration ∧ plan.duration = 30 := by
    intro subs u planId now fid plan r hplan hok
    have hdur : plan.duration = 30 := by
      have hmem : plan ∈ plans := List.mem_of_find?_eq_some hplan
      simp [plans] at hmem
      rcases hmem with h | h | h <;> simp [h]
    refine ⟨?_, hdur⟩
    by_cases hp : planId.isEmpty = true
    · simp [subscribe, hp] at hok
    · rcases hex : subs.find? (isActiveFor u) with _ | s
      · simp [subscribe, hp, hplan, hex] at hok
        rw [← hok]
      · simp [subscribe, hp, hplan, hex] at hok
        rw [← hok]
  exact ⟨main, fun subs u pid1 pid2 t1 t2 f1 f2 plan2 r2 hplan hok =>
    (main _ _ _ _ _ _ _ hplan hok).1⟩

/-- Witness for C4: subscribing at instant 0 and again one day later
(86400000 ms) leaves `expiresAt` at the second call's time plus 30 days
(2678400000), not plus two durations. -/
theorem c4_nonadditive_renewal_witness :
    (subscribe (subscribe [] "u" "basic" 0 "a").2 "u" "basic" 86400000 "b").1 =
      .ok ⟨"a", "u", "basic", 999/100, "active", 0, 2678400000, 86400000⟩ ∧
    (2678400000 : ℤ) = addDays 86400000 30 := by
  have h : (subscribe (subscribe [] "u" "basic" 0 "a").2 "u" "basic" 86400000 "b").1 =
      .ok ⟨"a", "u", "basic", 999/100, "active", 0, 2678400000, 86400000⟩ := by
    rfl
  refine ⟨h, ?_⟩
  have := c4_nonadditive_renewal.2 [] "u" "basic" "basic" 0 86400000 "a" "b"
    ⟨"basic", 999/100, 30⟩
    ⟨"a", "u", "basic", 999/100, "active", 0, 2678400000, 86400000⟩ rfl h
  simpa using this

/-- C1: the booking handler's three-disjunct range test agrees with the
spec's half-open formula — a candidate `[a, c)` conflicts with an existing
booking exactly when that booking is for the same property with status
"confirmed" and `a < checkOut ∧ checkIn < c` — and whenever some existing
booking conflicts, creation fails with DatesUnavailable and the bookings
collection is left unchanged. -/
theorem c1_booking_conflict :
    (∀ (b : Booking) (pid : String) (a c : ℤ),
       a < c → b.checkIn < b.checkOut →
       (conflictsWith pid a c b = true ↔
         (b.propertyId = pid ∧ b.status = "confirmed" ∧
           specConflict a c b.checkIn b.checkOut))) ∧
    (∀ (properties : List Property) (bookings : List Booking) (uid : String)
       (req : BookingReq) (now : ℤ) (fid : String) (ci co : ℤ),
       req.checkIn = some ci → req.checkOut = some co →
       ¬req.propertyId.isEmpty = true →
       (properties.find? (fun p => p.id = req.propertyId)).isSome →
       (∃ b ∈ bookings, conflictsWith req.propertyId ci co b = true) →
       createBooking properties bookings uid req now fid =
         (.error .DatesUnavailable, bookings)) := by
  constructor
  · intro b pid a c hac hbk
    unfold conflictsWith specConflict
    by_cases hpid : b.propertyId = pid
    · by_cases hst : b.status = "confirmed"
      · rw [if_neg (by simp [hpid, hst])]
        simp only [hpid, hst, true_and, Bool.or_eq_true, decide_eq_true_eq]
        omega
      · rw [if_pos (by simp [hst])]
        simp [hst]
    · rw [if_pos (by simp [hpid])]
      simp [hpid]
  · intro properties bookings uid req now fid ci co hci hco hp hprop hconf
    obtain ⟨property, hpr⟩ := Option.isSome_iff_exists.mp hprop
    have hfind : (bookings.find? (conflictsWith req.propertyId ci co)).isSome := by
      rw [List.find?_isSome]
      exact hconf
    obtain ⟨cb, hcb⟩ := Option.isSome_iff_exists.mp hfind
    simp [createBooking, hci, hco, hp, hpr, hcb]

/-- Witness for C1: with an existing confirmed booking over
[2024-01-10, 2024-01-15) (epoch ms), candidate [2024-01-14, 2024-01-20)
makes creation fail with DatesUnavailable and leaves the collection
unchanged; candidate [2024-01-15, 2024-01-20) does not conflict (touching
boundary), while the first candidate does. -/
theorem c1_booking_conflict_witness :
    createBooking
        [⟨"p1", "o1", vStr "T", vStr "", vStr "L", vNum 100, vStr "apartment",
          vNum 1, vNum 1, vNum 2, vArr [], vArr [], vNum 0, vNum 0,
          vBool false, vBool false, 0, 0⟩]
        [⟨"b1", "p1", "u2", 1704844800000, 1705276800000, vNum 2, vNum 500,
          "confirmed", 0⟩]
        "u3" ⟨"p1", some 1705190400000, some 1705708800000, vUndef⟩ 0 "b2" =
      (.error .DatesUnavailable,
        [⟨"b1", "p1", "u2", 1704844800000, 1705276800000, vNum 2, vNum 500,
          "confirmed", 0⟩]) ∧
    conflictsWith "p1" 1705190400000 1705708800000
      ⟨"b1", "p1", "u2", 1704844800000, 1705276800000, vNum 2, vNum 500,
        "confirmed", 0⟩ = true ∧
    conflictsWith "p1" 1705276800000 1705708800000
      ⟨"b1", "p1", "u2", 1704844800000, 1705276800000, vNum 2, vNum 500,
        "confirmed", 0⟩ = false := by
  refine ⟨?_, ?_, by decide⟩
  · exact c1_booking_conflict.2
      [⟨"p1", "o1", vStr "T", vStr "", vStr "L", vNum 100, vStr "apartment",
        vNum 1, vNum 1, vNum 2, vArr [], vArr [], vNum 0, vNum 0,
        vBool false, vBool false, 0, 0⟩]
      [⟨"b1", "p1", "u2", 1704844800000, 1705276800000, vNum 2, vNum 500,
        "confirmed", 0⟩]
      "u3" ⟨"p1", some 1705190400000, some 1705708800000, vUndef⟩ 0 "b2"
      1705190400000 1705708800000 rfl rfl (by decide) (by decide)
      ⟨⟨"b1", "p1", "u2", 1704844800000, 1705276800000, vNum 2, vNum 500,
        "confirmed", 0⟩, by simp, by decide⟩
  · exact (c1_booking_conflict.1
      ⟨"b1", "p1", "u2", 1704844800000, 1705276800000, vNum 2, vNum 500,
        "confirmed", 0⟩
      "p1" 1705190400000 1705708800000 (by decide) (by decide)).mpr
      ⟨rfl, rfl, by constructor <;> decide⟩

/-- C7: a successfully created booking has status "confirmed" exactly when
the booked property's `instant` flag is truthy and "pending" otherwise, and
creation only appends — every pre-existing booking is stored unchanged, so no
pending booking transitions through creation. -/
theorem c7_status_at_creation :
    ∀ (properties : List Property) (bookings : List Booking) (uid : String)
      (req : BookingReq) (now : ℤ) (fid : String) (property : Property)
      (b : Booking),
      properties.find? (fun p => p.id = req.propertyId) = some property →
      (createBooking properties bookings uid req now fid).1 = .ok b →
      b.status = (if truthy property.instant then "confirmed" else "pending") ∧
      (createBooking properties bookings uid req now fid).2 = bookings ++ [b] := by
  intro properties bookings uid req now fid property b hpr hok
  rcases hci : req.checkIn with _ | ci
  · rw [createBooking, hci] at hok
    cases hok
  · rcases hco : req.checkOut with _ | co
    · rw [createBooking, hci, hco] at hok
      cases hok
    · by_cases hp : req.propertyId.isEmpty = true
      · rw [createBooking, hci, hco] at hok
        simp [hp] at hok
      · rcases hcf : bookings.find? (conflictsWith req.propertyId ci co) with _ | cb
        · rw [createBooking, hci, hco] at hok ⊢
          simp only [hp, if_false, hpr, hcf, Bool.false_eq_true] at hok ⊢
          obtain rfl := (Except.ok.inj hok).symm
          exact ⟨rfl, rfl⟩
        · rw [createBooking, hci, hco] at hok
          simp only [hp, if_false, hpr, hcf, Bool.false_eq_true] at hok
          cases hok

/-- Witness for C7: booking the instant property "p1" immediately yields
status "confirmed" and appends the booking; booking the non-instant property
"p2" yields status "pending". -/
theorem c7_status_at_creation_witness :
    (createBooking
        [⟨"p1", "o1", vStr "T", vStr "", vStr "L", vNum 100, vStr "apartment",
          vNum 1, vNum 1, vNum 2, vArr [], vArr [], vNum 0, vNum 0,
          vBool true, vBool false, 0, 0⟩]
        [] "u" ⟨"p1", some 0, some 86400000, vUndef⟩ 0 "b1").1 =
      .ok ⟨"b1", "p1", "u", 0, 86400000, vNum 2,
           jsMul (vNum 100) (vNum ((nights 0 86400000 : ℤ) : ℚ)),
           "confirmed", 0⟩ ∧
    ("confirmed" : String) =
      (if truthy (vBool true) then "confirmed" else "pending") ∧
    (createBooking
        [⟨"p2", "o1", vStr "T", vStr "", vStr "L", vNum 100, vStr "apartment",
          vNum 1, vNum 1, vNum 2, vArr [], vArr [], vNum 0, vNum 0,
          vBool false, vBool false, 0, 0⟩]
        [] "u" ⟨"p2", some 0, some 86400000, vUndef⟩ 0 "b2").1 =
      .ok ⟨"b2", "p2", "u", 0, 86400000, vNum 2,
           jsMul (vNum 100) (vNum ((nights 0 86400000 : ℤ) : ℚ)),
           "pending", 0⟩ ∧
    ("pending" : String) =
      (if truthy (vBool false) then "confirmed" else "pending") := by
  have h1 : (createBooking
      [⟨"p1", "o1", vStr "T", vStr "", vStr "L", vNum 100, vStr "apartment",
        vNum 1, vNum 1, vNum 2, vArr [], vArr [], vNum 0, vNum 0,
        vBool true, vBool false, 0, 0⟩]
      [] "u" ⟨"p1", some 0, some 86400000, vUndef⟩ 0 "b1").1 =
      .ok ⟨"b1", "p1", "u", 0, 86400000, vNum 2,
           jsMul (vNum 100) (vNum ((nights 0 86400000 : ℤ) : ℚ)),
           "confirmed", 0⟩ := by
    rfl
  have h2 : (createBooking
      [⟨"p2", "o1", vStr "T", vStr "", vStr "L", vNum 100, vStr "apartment",
        vNum 1, vNum 1, vNum 2, vArr [], vArr [], vNum 0, vNum 0,
        vBool false, vBool false, 0, 0⟩]
      [] "u" ⟨"p2", some 0, some 86400000, vUndef⟩ 0 "b2").1 =
      .ok ⟨"b2", "p2", "u", 0, 86400000, vNum 2,
           jsMul (vNum 100) (vNum ((nights 0 86400000 : ℤ) : ℚ)),
           "pending", 0⟩ := by
    rfl
  refine ⟨h1, ?_, h2, ?_⟩
  · exact (c7_status_at_creation
      [⟨"p1", "o1", vStr "T", vStr "", vStr "L", vNum 100, vStr "apartment",
        vNum 1, vNum 1, vNum 2, vArr [], vArr [], vNum 0, vNum 0,
        vBool true, vBool false, 0, 0⟩]
      [] "u" ⟨"p1", some 0, some 86400000, vUndef⟩ 0 "b1"
      ⟨"p1", "o1", vStr "T", vStr "", vStr "L", vNum 100, vStr "apartment",
        vNum 1, vNum 1, vNum 2, vArr [], vArr [], vNum 0, vNum 0,
        vBool true, vBool false, 0, 0⟩
      ⟨"b1", "p1", "u", 0, 86400000, vNum 2,
        jsMul (vNum 100) (vNum ((nights 0 86400000 : ℤ) : ℚ)), "confirmed", 0⟩
      rfl h1).1
  · exact (c7_status_at_creation
      [⟨"p2", "o1", vStr "T", vStr "", vStr "L", vNum 100, vStr "apartment",
        vNum 1, vNum 1, vNum 2, vArr [], vArr [], vNum 0, vNum 0,
        vBool false, vBool false, 0, 0⟩]
      [] "u" ⟨"p2", some 0, some 86400000, vUndef⟩ 0 "b2"
      ⟨"p2", "o1", vStr "T", vStr "", vStr "L", vNum 100, vStr "apartment",
        vNum 1, vNum 1, vNum 2, vArr [], vArr [], vNum 0, vNum 0,
        vBool false, vBool false, 0, 0⟩
      ⟨"b2", "p2", "u", 0, 86400000, vNum 2,
        jsMul (vNum 100) (vNum ((nights 0 86400000 : ℤ) : ℚ)), "pending", 0⟩
      rfl h2).1

lemma updateBookingStatus_of_findIdx (bookings : List Booking)
    (properties : List Property) (id status uid : String) (i : ℕ)
    (hi : i < bookings.length)
    (hidx : bookings.findIdx? (fun b => b.id = id) = some i) :
    updateBookingStatus bookings properties id status uid =
      match properties.find? (fun p => p.id = (bookings.get ⟨i, hi⟩).propertyId) with
      | none => (.error .Forbidden, bookings)
      | some property =>
        if property.ownerId ≠ uid then (.error .Forbidden, bookings)
        else (.ok { bookings.get ⟨i, hi⟩ with status := status },
              bookings.set i { bookings.get ⟨i, hi⟩ with status := status }) := by
  unfold updateBookingStatus
  split
  · rename_i hnone
    rw [hnone] at hidx
    cases hidx
  · rename_i idx hsome
    rw [hsome] at hidx
    injection hidx with hidx'
    subst hidx'
    rfl

lemma updateProperty_of_findIdx (properties : List Property) (id uid : String)
    (patch : PropPatch) (now : ℤ) (i : ℕ) (hi : i < properties.length)
    (hidx : properties.findIdx? (fun p => p.id = id) = some i) :
    updateProperty properties id uid patch now =
      if (properties.get ⟨i, hi⟩).ownerId ≠ uid then (.error .Forbidden, properties)
      else (.ok (mergePatch (properties.get ⟨i, hi⟩) patch now),
            properties.set i (mergePatch (properties.get ⟨i, hi⟩) patch now)) := by
  unfold updateProperty
  split
  · rename_i hnone
    rw [hnone] at hidx
    cases hidx
  · rename_i idx hsome
    rw [hsome] at hidx
    injection hidx with hidx'
    subst hidx'
    rfl

lemma updateProperty_of_none (properties : List Property) (id uid : String)
    (patch : PropPatch) (now : ℤ)
    (hidx : properties.findIdx? (fun p => p.id = id) = none) :
    updateProperty properties id uid patch now = (.error .NotFound, properties) := by
  unfold updateProperty
  split
  · rfl
  · rename_i idx hsome
    rw [hidx] at hsome
    cases hsome

/-- C6: updating a booking's status succeeds only for the owner of the
booking's property (resolved by looking up the booking's propertyId): when the
property is missing or its ownerId differs from the requester, the call fails
with Forbidden and the bookings collection is unchanged; when the owner calls,
any status string whatsoever is stored on that booking. -/
theorem c6_update_status_owner_only :
    ∀ (bookings : List Booking) (properties : List Property)
      (id status uid : String) (i : ℕ) (booking : Booking),
      bookings.findIdx? (fun b => b.id = id) = some i →
      bookings[i]? = some booking →
      (properties.find? (fun p => p.id = booking.propertyId) = none →
        updateBookingStatus bookings properties id status uid =
          (.error .Forbidden, bookings)) ∧
      (∀ property,
        properties.find? (fun p => p.id = booking.propertyId) = some property →
        property.ownerId ≠ uid →
        updateBookingStatus bookings properties id status uid =
          (.error .Forbidden, bookings)) ∧
      (∀ property,
        properties.find? (fun p => p.id = booking.propertyId) = some property →
        property.ownerId = uid →
        updateBookingStatus bookings properties id status uid =
          (.ok { booking with status := status },
           bookings.set i { booking with status := status })) := by
  intro bookings properties id status uid i booking hidx hget
  obtain ⟨hi, hval⟩ := List.getElem?_eq_some.mp hget
  have hgv : bookings.get ⟨i, hi⟩ = booking := hval
  have hchar := updateBookingStatus_of_findIdx bookings properties id status uid i hi hidx
  rw [hgv] at hchar
  refine ⟨?_, ?_, ?_⟩
  · intro hnone
    rw [hchar, hnone]
  · intro property hsome hne
    rw [hchar, hsome]
    simp [hne]
  · intro property hsome heq
    rw [hchar, hsome]
    simp [heq]

/-- Witness for C6: the booking's own guest "u2" cannot change the status of
booking "b1" on property "p1" owned by "o1" (Forbidden, collection
unchanged); the owner "o1" can, and the arbitrary string "whatever" is
stored. -/
theorem c6_update_status_owner_only_witness :
    updateBookingStatus
        [⟨"b1", "p1", "u2", 0, 86400000, vNum 2, vNum 100, "pending", 0⟩]
        [⟨"p1", "o1", vStr "T", vStr "", vStr "L", vNum 100, vStr "apartment",
          vNum 1, vNum 1, vNum 2, vArr [], vArr [], vNum 0, vNum 0,
          vBool false, vBool false, 0, 0⟩]
        "b1" "whatever" "u2" =
      (.error .Forbidden,
        [⟨"b1", "p1", "u2", 0, 86400000, vNum 2, vNum 100, "pending", 0⟩]) ∧
    updateBookingStatus
        [⟨"b1", "p1", "u2", 0, 86400000, vNum 2, vNum 100, "pending", 0⟩]
        [⟨"p1", "o1", vStr "T", vStr "", vStr "L", vNum 100, vStr "apartment",
          vNum 1, vNum 1, vNum 2, vArr [], vArr [], vNum 0, vNum 0,
          vBool false, vBool false, 0, 0⟩]
        "b1" "whatever" "o1" =
      (.ok ⟨"b1", "p1", "u2", 0, 86400000, vNum 2, vNum 100, "whatever", 0⟩,
        [⟨"b1", "p1", "u2", 0, 86400000, vNum 2, vNum 100, "whatever", 0⟩]) := by
  constructor
  · exact (c6_update_status_owner_only
      [⟨"b1", "p1", "u2", 0, 86400000, vNum 2, vNum 100, "pending", 0⟩]
      [⟨"p1", "o1", vStr "T", vStr "", vStr "L", vNum 100, vStr "apartment",
        vNum 1, vNum 1, vNum 2, vArr [], vArr [], vNum 0, vNum 0,
        vBool false, vBool false, 0, 0⟩]
      "b1" "whatever" "u2" 0
      ⟨"b1", "p1", "u2", 0, 86400000, vNum 2, vNum 100, "pending", 0⟩
      rfl rfl).2.1
      ⟨"p1", "o1", vStr "T", vStr "", vStr "L", vNum 100, vStr "apartment",
        vNum 1, vNum 1, vNum 2, vArr [], vArr [], vNum 0, vNum 0,
        vBool false, vBool false, 0, 0⟩
      rfl (by decide)
  · exact (c6_update_status_owner_only
      [⟨"b1", "p1", "u2", 0, 86400000, vNum 2, vNum 100, "pending", 0⟩]
      [⟨"p1", "o1", vStr "T", vStr "", vStr "L", vNum 100, vStr "apartment",
        vNum 1, vNum 1, vNum 2, vArr [], vArr [], vNum 0, vNum 0,
        vBool false, vBool false, 0, 0⟩]
      "b1" "whatever" "o1" 0
      ⟨"b1", "p1", "u2", 0, 86400000, vNum 2, vNum 100, "pending", 0⟩
      rfl rfl).2.2
      ⟨"p1", "o1", vStr "T", vStr "", vStr "L", vNum 100, vStr "apartment",
        vNum 1, vNum 1, vNum 2, vArr [], vArr [], vNum 0, vNum 0,
        vBool false, vBool false, 0, 0⟩
      rfl rfl

/-- C8: listing update fails with NotFound when no property carries the
requested id; fails with Forbidden (collection unchanged) when the located
property's owner differs from the caller; otherwise the patch is merged over
the record with id and ownerId pinned to their pre-update values (even if the
patch carries id/ownerId), updatedAt refreshed, and every other position of
the collection left unchanged. -/
theorem c8_listing_update :
    (∀ (properties : List Property) (id uid : String) (patch : PropPatch)
       (now : ℤ),
       (∀ p ∈ properties, ¬p.id = id) →
       updateProperty properties id uid patch now = (.error .NotFound, properties)) ∧
    (∀ (properties : List Property) (id uid : String) (patch : PropPatch)
       (now : ℤ) (i : ℕ) (property : Property),
       properties.findIdx? (fun p => p.id = id) = some i →
       properties[i]? = some property →
       (property.ownerId ≠ uid →
         updateProperty properties id uid patch now =
           (.error .Forbidden, properties)) ∧
       (property.ownerId = uid →
         updateProperty properties id uid patch now =
           (.ok (mergePatch property patch now),
            properties.set i (mergePatch property patch now)) ∧
         (mergePatch property patch now).id = property.id ∧
         (mergePatch property patch now).ownerId = property.ownerId ∧
         (mergePatch property patch now).updatedAt = now ∧
         ∀ j, j ≠ i →
           (properties.set i (mergePatch property patch now))[j]? =
             properties[j]?)) := by
  constructor
  · intro properties id uid patch now hno
    refine updateProperty_of_none properties id uid patch now ?_
    rw [List.findIdx?_eq_none_iff]
    intro x hx
    simpa using hno x hx
  · intro properties id uid patch now i property hidx hget
    obtain ⟨hi, hval⟩ := List.getElem?_eq_some.mp hget
    have hgv : properties.get ⟨i, hi⟩ = property := hval
    have hchar := updateProperty_of_findIdx properties id uid patch now i hi hidx
    rw [hgv] at hchar
    constructor
    · intro hne
      rw [hchar, if_pos hne]
    · intro heq
      rw [hchar, if_neg (by simp [heq])]
      refine ⟨rfl, rfl, rfl, rfl, ?_⟩
      intro j hj
      exact List.getElem?_set_ne (fun he => hj he.symm)

/-- Witness for C8: owner "o1" patches property "p1" with a patch that tries
to overwrite id and ownerId; the update succeeds, the stored record keeps
id "p1" and owner "o1" while taking the patched title and the fresh
updatedAt, and a stranger's identical call fails with Forbidden. -/
theorem c8_listing_update_witness :
    (updateProperty
        [⟨"p1", "o1", vStr "T", vStr "", vStr "L", vNum 100, vStr "apartment",
          vNum 1, vNum 1, vNum 2, vArr [], vArr [], vNum 0, vNum 0,
          vBool false, vBool false, 0, 0⟩]
        "p1" "o1"
        { id := some "EVIL", ownerId := some "EVIL", title := some (vStr "New") } 7 =
      (.ok (mergePatch
          ⟨"p1", "o1", vStr "T", vStr "", vStr "L", vNum 100, vStr "apartment",
            vNum 1, vNum 1, vNum 2, vArr [], vArr [], vNum 0, vNum 0,
            vBool false, vBool false, 0, 0⟩
          { id := some "EVIL", ownerId := some "EVIL", title := some (vStr "New") } 7),
        [mergePatch
          ⟨"p1", "o1", vStr "T", vStr "", vStr "L", vNum 100, vStr "apartment",
            vNum 1, vNum 1, vNum 2, vArr [], vArr [], vNum 0, vNum 0,
            vBool false, vBool false, 0, 0⟩
          { id := some "EVIL", ownerId := some "EVIL", title := some (vStr "New") } 7])) ∧
    (mergePatch
        ⟨"p1", "o1", vStr "T", vStr "", vStr "L", vNum 100, vStr "apartment",
          vNum 1, vNum 1, vNum 2, vArr [], vArr [], vNum 0, vNum 0,
          vBool false, vBool false, 0, 0⟩
        { id := some "EVIL", ownerId := some "EVIL", title := some (vStr "New") } 7).id =
      "p1" ∧
    (mergePatch
        ⟨"p1", "o1", vStr "T", vStr "", vStr "L", vNum 100, vStr "apartment",
          vNum 1, vNum 1, vNum 2, vArr [], vArr [], vNum 0, vNum 0,
          vBool false, vBool false, 0, 0⟩
        { id := some "EVIL", ownerId := some "EVIL", title := some (vStr "New") } 7).ownerId =
      "o1" ∧
    updateProperty
        [⟨"p1", "o1", vStr "T", vStr "", vStr "L", vNum 100, vStr "apartment",
          vNum 1, vNum 1, vNum 2, vArr [], vArr [], vNum 0, vNum 0,
          vBool false, vBool false, 0, 0⟩]
        "p1" "intruder"
        { id := some "EVIL", ownerId := some "EVIL", title := some (vStr "New") } 7 =
      (.error .Forbidden,
        [⟨"p1", "o1", vStr "T", vStr "", vStr "L", vNum 100, vStr "apartment",
          vNum 1, vNum 1, vNum 2, vArr [], vArr [], vNum 0, vNum 0,
          vBool false, vBool false, 0, 0⟩]) := by
  have hmain := (c8_listing_update.2
    [⟨"p1", "o1", vStr "T", vStr "", vStr "L", vNum 100, vStr "apartment",
      vNum 1, vNum 1, vNum 2, vArr [], vArr [], vNum 0, vNum 0,
      vBool false, vBool false, 0, 0⟩]
    "p1" "o1"
    { id := some "EVIL", ownerId := some "EVIL", title := some (vStr "New") } 7 0
    ⟨"p1", "o1", vStr "T", vStr "", vStr "L", vNum 100, vStr "apartment",
      vNum 1, vNum 1, vNum 2, vArr [], vArr [], vNum 0, vNum 0,
      vBool false, vBool false, 0, 0⟩
    rfl rfl).2 rfl
  have hforb := (c8_listing_update.2
    [⟨"p1", "o1", vStr "T", vStr "", vStr "L", vNum 100, vStr "apartment",
      vNum 1, vNum 1, vNum 2, vArr [], vArr [], vNum 0, vNum 0,
      vBool false, vBool false, 0, 0⟩]
    "p1" "intruder"
    { id := some "EVIL", ownerId := some "EVIL", title := some (vStr "New") } 7 0
    ⟨"p1", "o1", vStr "T", vStr "", vStr "L", vNum 100, vStr "apartment",
      vNum 1, vNum 1, vNum 2, vArr [], vArr [], vNum 0, vNum 0,
      vBool false, vBool false, 0, 0⟩
    rfl rfl).1 (by decide)
  exact ⟨hmain.1, hmain.2.1, hmain.2.2.1.trans rfl, hforb⟩

/-- C5: a basic-plan owner who already has at least 3 listings gets
PlanLimitExceeded (and nothing is created) on a valid create request, while an
owner on any non-basic plan can never receive PlanLimitExceeded, whatever the
number of existing listings. -/
theorem c5_basic_plan_cap :
    (∀ (properties : List Property) (sub : Subscription) (uid : String)
       (req : PropReq) (now : ℤ) (fid : String),
       truthy req.title = true → truthy req.location = true →
       truthy req.price = true →
       sub.planId = "basic" →
       3 ≤ (properties.filter (fun p => p.ownerId = uid)).length →
       createProperty properties sub uid req now fid =
         (.error .PlanLimitExceeded, properties)) ∧
    (∀ (properties : List Property) (sub : Subscription) (uid : String)
       (req : PropReq) (now : ℤ) (fid : String),
       sub.planId ≠ "basic" →
       (createProperty properties sub uid req now fid).1 ≠
         .error .PlanLimitExceeded) := by
  constructor
  · intro properties sub uid req now fid ht hl hp hplan hcount
    unfold createProperty
    rw [if_neg (by simp [ht, hl, hp]), if_pos ⟨hplan, hcount⟩]
  · intro properties sub uid req now fid hne
    unfold createProperty
    split
    · simp
    · split
      · rename_i hcond
        exact absurd hcond.1 hne
      · simp

/-- Witness for C5: the basic-plan owner "o1" with three existing listings is
refused a fourth with PlanLimitExceeded and nothing is written; the same
request under a premium subscription never yields PlanLimitExceeded. -/
theorem c5_basic_plan_cap_witness :
    createProperty
        [⟨"p1", "o1", vStr "T", vStr "", vStr "L", vNum 100, vStr "apartment",
          vNum 1, vNum 1, vNum 2, vArr [], vArr [], vNum 0, vNum 0,
          vBool false, vBool false, 0, 0⟩,
         ⟨"p2", "o1", vStr "T", vStr "", vStr "L", vNum 100, vStr "apartment",
          vNum 1, vNum 1, vNum 2, vArr [], vArr [], vNum 0, vNum 0,
          vBool false, vBool false, 0, 0⟩,
         ⟨"p3", "o1", vStr "T", vStr "", vStr "L", vNum 100, vStr "apartment",
          vNum 1, vNum 1, vNum 2, vArr [], vArr [], vNum 0, vNum 0,
          vBool false, vBool false, 0, 0⟩]
        ⟨"s1", "o1", "basic", 999/100, "active", 0, 10, 0⟩ "o1"
        { title := vStr "T4", location := vStr "L4", price := vNum 80 } 3 "p4" =
      (.error .PlanLimitExceeded,
        [⟨"p1", "o1", vStr "T", vStr "", vStr "L", vNum 100, vStr "apartment",
          vNum 1, vNum 1, vNum 2, vArr [], vArr [], vNum 0, vNum 0,
          vBool false, vBool false, 0, 0⟩,
         ⟨"p2", "o1", vStr "T", vStr "", vStr "L", vNum 100, vStr "apartment",
          vNum 1, vNum 1, vNum 2, vArr [], vArr [], vNum 0, vNum 0,
          vBool false, vBool false, 0, 0⟩,
         ⟨"p3", "o1", vStr "T", vStr "", vStr "L", vNum 100, vStr "apartment",
          vNum 1, vNum 1, vNum 2, vArr [], vArr [], vNum 0, vNum 0,
          vBool false, vBool false, 0, 0⟩]) ∧
    (createProperty
        [⟨"p1", "o1", vStr "T", vStr "", vStr "L", vNum 100, vStr "apartment",
          vNum 1, vNum 1, vNum 2, vArr [], vArr [], vNum 0, vNum 0,
          vBool false, vBool false, 0, 0⟩,
         ⟨"p2", "o1", vStr "T", vStr "", vStr "L", vNum 100, vStr "apartment",
          vNum 1, vNum 1, vNum 2, vArr [], vArr [], vNum 0, vNum 0,
          vBool false, vBool false, 0, 0⟩,
         ⟨"p3", "o1", vStr "T", vStr "", vStr "L", vNum 100, vStr "apartment",
          vNum 1, vNum 1, vNum 2, vArr [], vArr [], vNum 0, vNum 0,
          vBool false, vBool false, 0, 0⟩]
        ⟨"s1", "o1", "premium", 1999/100, "active", 0, 10, 0⟩ "o1"
        { title := vStr "T4", location := vStr "L4", price := vNum 80 } 3 "p4").1 ≠
      .error .PlanLimitExceeded := by
  constructor
  · exact c5_basic_plan_cap.1
      [⟨"p1", "o1", vStr "T", vStr "", vStr "L", vNum 100, vStr "apartment",
        vNum 1, vNum 1, vNum 2, vArr [], vArr [], vNum 0, vNum 0,
        vBool false, vBool false, 0, 0⟩,
       ⟨"p2", "o1", vStr "T", vStr "", vStr "L", vNum 100, vStr "apartment",
        vNum 1, vNum 1, vNum 2, vArr [], vArr [], vNum 0, vNum 0,
        vBool false, vBool false, 0, 0⟩,
       ⟨"p3", "o1", vStr "T", vStr "", vStr "L", vNum 100, vStr "apartment",
        vNum 1, vNum 1, vNum 2, vArr [], vArr [], vNum 0, vNum 0,
        vBool false, vBool false, 0, 0⟩]
      ⟨"s1", "o1", "basic", 999/100, "active", 0, 10, 0⟩ "o1"
      { title := vStr "T4", location := vStr "L4", price := vNum 80 } 3 "p4"
      rfl rfl (by decide) rfl (by decide)
  · exact c5_basic_plan_cap.2
      [⟨"p1", "o1", vStr "T", vStr "", vStr "L", vNum 100, vStr "apartment",
        vNum 1, vNum 1, vNum 2, vArr [], vArr [], vNum 0, vNum 0,
        vBool false, vBool false, 0, 0⟩,
       ⟨"p2", "o1", vStr "T", vStr "", vStr "L", vNum 100, vStr "apartment",
        vNum 1, vNum 1, vNum 2, vArr [], vArr [], vNum 0, vNum 0,
        vBool false, vBool false, 0, 0⟩,
       ⟨"p3", "o1", vStr "T", vStr "", vStr "L", vNum 100, vStr "apartment",
        vNum 1, vNum 1, vNum 2, vArr [], vArr [], vNum 0, vNum 0,
        vBool false, vBool false, 0, 0⟩]
      ⟨"s1", "o1", "premium", 1999/100, "active", 0, 10, 0⟩ "o1"
      { title := vStr "T4", location := vStr "L4", price := vNum 80 } 3 "p4"
      (by decide)

/-- C10: the required-field check of listing creation is plain JS truthiness
— a falsy title, location or price (price 0 and the empty string included)
fails with ValidationError before the plan-limit check or any write, whatever
the subscription plan and however many listings exist. -/
theorem c10_truthiness_validation :
    (truthy (vNum 0) = false ∧ truthy (vStr "") = false) ∧
    ∀ (properties : List Property) (sub : Subscription) (uid : String)
      (req : PropReq) (now : ℤ) (fid : String),
      (¬truthy req.title = true ∨ ¬truthy req.location = true ∨
        ¬truthy req.price = true) →
      createProperty properties sub uid req now fid =
        (.error .ValidationError, properties) := by
  refine ⟨⟨rfl, rfl⟩, ?_⟩
  intro properties sub uid req now fid h
  unfold createProperty
  rw [if_pos h]

/-- Witness for C10: a creation request with price 0 (resp. empty title) by a
basic-plan owner with three listings fails with ValidationError — not
PlanLimitExceeded — and writes nothing. -/
theorem c10_truthiness_validation_witness :
    createProperty
        [⟨"p1", "o1", vStr "T", vStr "", vStr "L", vNum 100, vStr "apartment",
          vNum 1, vNum 1, vNum 2, vArr [], vArr [], vNum 0, vNum 0,
          vBool false, vBool false, 0, 0⟩]
        ⟨"s1", "o1", "basic", 999/100, "active", 0, 10, 0⟩ "o1"
        { title := vStr "T4", location := vStr "L4", price := vNum 0 } 3 "p4" =
      (.error .ValidationError,
        [⟨"p1", "o1", vStr "T", vStr "", vStr "L", vNum 100, vStr "apartment",
          vNum 1, vNum 1, vNum 2, vArr [], vArr [], vNum 0, vNum 0,
          vBool false, vBool false, 0, 0⟩]) ∧
    createProperty
        [⟨"p1", "o1", vStr "T", vStr "", vStr "L", vNum 100, vStr "apartment",
          vNum 1, vNum 1, vNum 2, vArr [], vArr [], vNum 0, vNum 0,
          vBool false, vBool false, 0, 0⟩]
        ⟨"s1", "o1", "basic", 999/100, "active", 0, 10, 0⟩ "o1"
        { title := vStr "", location := vStr "L4", price := vNum 80 } 3 "p4" =
      (.error .ValidationError,
        [⟨"p1", "o1", vStr "T", vStr "", vStr "L", vNum 100, vStr "apartment",
          vNum 1, vNum 1, vNum 2, vArr [], vArr [], vNum 0, vNum 0,
          vBool false, vBool false, 0, 0⟩]) := by
  constructor
  · exact c10_truthiness_validation.2
      [⟨"p1", "o1", vStr "T", vStr "", vStr "L", vNum 100, vStr "apartment",
        vNum 1, vNum 1, vNum 2, vArr [], vArr [], vNum 0, vNum 0,
        vBool false, vBool false, 0, 0⟩]
      ⟨"s1", "o1", "basic", 999/100, "active", 0, 10, 0⟩ "o1"
      { title := vStr "T4", location := vStr "L4", price := vNum 0 } 3 "p4"
      (Or.inr (Or.inr (by decide)))
  · exact c10_truthiness_validation.2
      [⟨"p1", "o1", vStr "T", vStr "", vStr "L", vNum 100, vStr "apartment",
        vNum 1, vNum 1, vNum 2, vArr [], vArr [], vNum 0, vNum 0,
        vBool false, vBool false, 0, 0⟩]
      ⟨"s1", "o1", "basic", 999/100, "active", 0, 10, 0⟩ "o1"
      { title := vStr "", location := vStr "L4", price := vNum 80 } 3 "p4"
      (Or.inl (by decide))

/-- C9: every store-level read failure — file absent, unreadable, or with
unparseable content — is swallowed: `readData` returns the empty sequence,
identical to reading a well-formed empty collection, so gated operations
behave exactly as on an empty collection. -/
theorem c9_read_failures_swallowed :
    (∀ (α : Type) (f : StoreFile α), f.failed →
      readData f = [] ∧ readData f = readData (StoreFile.parsed ([] : List α))) ∧
    (∀ (f : StoreFile Subscription) (u : String) (t : ℤ), f.failed →
      checkSubscription (readData f) u t = checkSubscription [] u t) := by
  constructor
  · intro α f hf
    cases f with
    | parsed records => exact absurd hf (by simp [StoreFile.failed])
    | absent => exact ⟨rfl, rfl⟩
    | unreadable => exact ⟨rfl, rfl⟩
    | corrupt => exact ⟨rfl, rfl⟩
  · intro f u t hf
    cases f with
    | parsed records => exact absurd hf (by simp [StoreFile.failed])
    | absent => rfl
    | unreadable => rfl
    | corrupt => rfl

/-- Witness for C9: a corrupt subscriptions file reads as the empty
collection and the gate treats it as such. -/
theorem c9_read_failures_swallowed_witness :
    (readData (StoreFile.corrupt : StoreFile Subscription) = [] ∧
      readData (StoreFile.corrupt : StoreFile Subscription) =
        readData (StoreFile.parsed ([] : List Subscription))) ∧
    checkSubscription (readData (StoreFile.corrupt : StoreFile Subscription)) "u1" 0 =
      checkSubscription [] "u1" 0 :=
  ⟨c9_read_failures_swallowed.1 Subscription StoreFile.corrupt trivial,
   c9_read_failures_swallowed.2 StoreFile.corrupt "u1" 0 trivial⟩

end Rental
